import Mathlib

/-!
Shallow embedding of the earthquake dashboard's data pipeline (src/app.py).

The script loads a CSV into a dataframe, cleans it (`load_data`), filters by a
selected year and inclusive magnitude range (`filtered`), aggregates a per-year
mean magnitude (`avg_mag`) and a tsunami value tally (`tsunami_count`), and
renders charts from those values.  Dataframes are embedded as lists of rows;
pandas floats are embedded as rationals; a missing value (NaN) in a CSV cell is
`Option.none`.
-/

/-- One row of the raw CSV `earthquake.csv` as read by `pd.read_csv`.
A missing cell (NaN after parsing) is `none`.  The `place` column may be
absent from the file altogether; a row of a file without it carries `none`. -/
structure RawRow where
  magnitude : Option ℚ
  depth : Option ℚ
  year : Option ℚ
  latitude : Option ℚ
  longitude : Option ℚ
  tsunami : Option ℚ
  place : Option String
  deriving DecidableEq

/-- One cleaned record, after `load_data`: the five required numeric fields are
present, `Year` has been cast to an integer, and `tsunami` is the display
string produced by the `"Yes" if x == 1 else "No"` mapping. -/
structure EarthquakeRecord where
  magnitude : ℚ
  depth : ℚ
  year : ℤ
  latitude : ℚ
  longitude : ℚ
  tsunami : String
  place : Option String
  deriving DecidableEq

/-- `astype(int)` on a pandas float column truncates each value toward zero. -/
def astypeInt (q : ℚ) : ℤ :=
  q.num.tdiv (q.den : ℤ)

/-- The per-row effect of `load_data`'s cleaning pipeline
(src/app.py lines 21-23): a row missing any of `magnitude`, `depth`, `Year`,
`latitude`, `longitude` is dropped by
`df.dropna(subset=[...])`; a surviving row has `Year` cast to `int` and its
tsunami flag mapped by `lambda x: "Yes" if x == 1 else "No"` (a missing
tsunami cell is NaN, which compares unequal to 1, hence `"No"`). -/
def cleanRow (row : RawRow) : Option EarthquakeRecord :=
  match row.magnitude, row.depth, row.year, row.latitude, row.longitude with
  | some m, some d, some y, some la, some lo =>
      some { magnitude := m
             depth := d
             year := astypeInt y
             latitude := la
             longitude := lo
             tsunami := if row.tsunami = some 1 then "Yes" else "No"
             place := row.place }
  | _, _, _, _, _ => none

/-- `load_data` (src/app.py lines 17-25) on the parsed rows of the CSV.
pandas applies `dropna`, the `Year` cast and the tsunami map columnwise and
row-order-preserving, which is exactly a row-wise `filterMap` of `cleanRow`. -/
def load_data (rows : List RawRow) : List EarthquakeRecord :=
  rows.filterMap cleanRow

/-- The filter criteria's effect (src/app.py lines 45-48):
`data[(data["Year"] == selected_year) & (data["magnitude"].between(lo, hi))]`.
`Series.between` is inclusive at both ends by default. -/
def filterRecords (data : List EarthquakeRecord) (selected_year : ℤ)
    (lo hi : ℚ) : List EarthquakeRecord :=
  data.filter fun r =>
    decide (r.year = selected_year) &&
      (decide (lo ≤ r.magnitude) && decide (r.magnitude ≤ hi))

/-- Insert a year into a strictly-sorted list of distinct years, keeping it
strictly sorted and dropping the year when already present. -/
def insertYear (y : ℤ) : List ℤ → List ℤ
  | [] => [y]
  | z :: zs =>
      if y < z then y :: z :: zs
      else if y = z then z :: zs
      else z :: insertYear y zs

/-- The distinct years of the record set in ascending order: the group keys of
`data.groupby("Year")` (pandas sorts group keys ascending by default), also
`sorted(data["Year"].unique())` (src/app.py line 33). -/
def sortedYears (records : List EarthquakeRecord) : List ℤ :=
  records.foldr (fun r acc => insertYear r.year acc) []

/-- The magnitudes of the records of year `y`, in record order: the
`magnitude` column of the group of `y` in `data.groupby("Year")`. -/
def yearMags (records : List EarthquakeRecord) (y : ℤ) : List ℚ :=
  (records.filter fun r => decide (r.year = y)).map fun r => r.magnitude

/-- Arithmetic mean of a list of rationals, as pandas `Series.mean` computes
it on a non-empty group. -/
def meanQ (l : List ℚ) : ℚ :=
  l.sum / (l.length : ℚ)

/-- Minimum of a non-empty list of rationals (`Series.min`); 0 on the empty
list, which never occurs in the program's uses. -/
def minList : List ℚ → ℚ
  | [] => 0
  | [a] => a
  | a :: b :: rest => min a (minList (b :: rest))

/-- Maximum of a non-empty list of rationals (`Series.max`); 0 on the empty
list, which never occurs in the program's uses. -/
def maxList : List ℚ → ℚ
  | [] => 0
  | [a] => a
  | a :: b :: rest => max a (maxList (b :: rest))

/-- `avg_mag = data.groupby("Year")["magnitude"].mean().reset_index()`
(src/app.py line 56): one `(year, mean magnitude)` row per distinct year, in
ascending year order. -/
def avg_mag (records : List EarthquakeRecord) : List (ℤ × ℚ) :=
  (sortedYears records).map fun y => (y, meanQ (yearMags records y))

/-- The `tsunami` column of the cleaned dataframe. -/
def tsunamiColumn (records : List EarthquakeRecord) : List String :=
  records.map fun r => r.tsunami

/-- `tsunami_count = data["tsunami"].value_counts().reset_index()`
(src/app.py lines 83-84): the mapping from each tsunami value that occurs in
the data to the number of records carrying it.  `value_counts` lists only
values that occur; its display order (descending count) carries no
information used by the program and is not fixed here. -/
def tsunami_count (records : List EarthquakeRecord) : List (String × ℕ) :=
  (tsunamiColumn records).dedup.map fun v => (v, (tsunamiColumn records).count v)

/-- `min_mag = float(data["magnitude"].min())` (src/app.py line 35). -/
def min_mag (data : List EarthquakeRecord) : ℚ :=
  minList (data.map fun r => r.magnitude)

/-- `max_mag = float(data["magnitude"].max())` (src/app.py line 36). -/
def max_mag (data : List EarthquakeRecord) : ℚ :=
  maxList (data.map fun r => r.magnitude)

/-- `filtered.head(20)` (src/app.py line 125): the tabular preview shows the
first up-to-20 rows of the filtered dataframe. -/
def previewRows (filtered : List EarthquakeRecord) : List EarthquakeRecord :=
  filtered.take 20

/-- What the map section of the page renders (src/app.py lines 98-122):
either the geographic scatter of the filtered records, or - when the filtered
dataframe is empty - the `st.info` message. -/
inductive MapSection where
  | geoChart (records : List EarthquakeRecord)
  | infoMessage (msg : String)
  deriving DecidableEq

/-- The informational text passed to `st.info` (src/app.py line 122). -/
def emptyFilterMessage : String :=
  "There is no earthquake data under the current filter criteria. Please adjust the magnitude range or year."

/-- The in-memory inputs handed to the presentation layer, one field per
visual of the page, each defined by the source expression feeding that
visual. -/
structure Page where
  trendInput : List (ℤ × ℚ)
  scatterInput : List EarthquakeRecord
  pieInput : List (String × ℕ)
  mapSection : MapSection
  preview : List EarthquakeRecord
  deriving DecidableEq

/-- One page render for the cleaned data and the active filter criteria:
the trend line takes `avg_mag` of the full data (line 58-65), the scatter
takes `filtered` (line 70-79), the pie takes `tsunami_count` of the full data
(line 86-95), the map takes `filtered` or the info message (lines 98-122),
and the preview takes `filtered.head(20)` (line 125). -/
def renderPage (data : List EarthquakeRecord) (selected_year : ℤ)
    (lo hi : ℚ) : Page :=
  let filtered := filterRecords data selected_year lo hi
  { trendInput := avg_mag data
    scatterInput := filtered
    pieInput := tsunami_count data
    mapSection :=
      if filtered.isEmpty then .infoMessage emptyFilterMessage
      else .geoChart filtered
    preview := previewRows filtered }

/-- The spec's fatal error taxonomy for `load` (spec section 7): the file is
absent, unreadable, or missing required columns.  The script lets the
underlying exception propagate uncaught, so a load failure never reaches the
rendering code. -/
inductive DataLoadError where
  | fileMissing
  | malformed
  deriving DecidableEq

/-- One run of the script: `none` input stands for an absent or unreadable
CSV, on which `pd.read_csv` raises and startup aborts; otherwise the page is
rendered from the cleaned data.  An empty filter result takes the normal
(`Except.ok`) path: only a failed load is an error. -/
def runApp (input : Option (List RawRow)) (selected_year : ℤ)
    (lo hi : ℚ) : Except DataLoadError Page :=
  match input with
  | none => .error .fileMissing
  | some rows => .ok (renderPage (load_data rows) selected_year lo hi)

/-! ### Helper lemmas about the embedded operations -/

theorem mem_insertYear {y a : ℤ} {l : List ℤ} :
    a ∈ insertYear y l ↔ a = y ∨ a ∈ l := by
  induction l with
  | nil => simp [insertYear]
  | cons z zs ih =>
    rw [insertYear]
    by_cases h1 : y < z
    · rw [if_pos h1]
      simp [List.mem_cons, or_left_comm]
    · rw [if_neg h1]
      by_cases h2 : y = z
      · subst h2
        rw [if_pos rfl]
        constructor
        · exact fun h => Or.inr h
        · rintro (rfl | h)
          · exact List.mem_cons_self _ _
          · exact h
      · rw [if_neg h2]
        simp only [List.mem_cons, ih]
        tauto

theorem pairwise_insertYear {y : ℤ} {l : List ℤ}
    (hl : l.Pairwise (· < ·)) : (insertYear y l).Pairwise (· < ·) := by
  induction l with
  | nil => simp [insertYear]
  | cons z zs ih =>
    obtain ⟨hz, hzs⟩ := List.pairwise_cons.mp hl
    rw [insertYear]
    by_cases h1 : y < z
    · rw [if_pos h1]
      refine List.pairwise_cons.mpr ⟨?_, hl⟩
      intro b hb
      rcases List.mem_cons.mp hb with rfl | hb
      · exact h1
      · exact lt_trans h1 (hz b hb)
    · rw [if_neg h1]
      by_cases h2 : y = z
      · rw [if_pos h2]
        exact hl
      · rw [if_neg h2]
        have hzy : z < y := lt_of_le_of_ne (not_lt.mp h1) fun e => h2 e.symm
        refine List.pairwise_cons.mpr ⟨?_, ih hzs⟩
        intro b hb
        rcases mem_insertYear.mp hb with rfl | hb
        · exact hzy
        · exact hz b hb

theorem sortedYears_pairwise (records : List EarthquakeRecord) :
    (sortedYears records).Pairwise (· < ·) := by
  induction records with
  | nil => simp [sortedYears]
  | cons r rest ih => exact pairwise_insertYear ih

theorem mem_sortedYears {records : List EarthquakeRecord} {y : ℤ} :
    y ∈ sortedYears records ↔ ∃ r ∈ records, r.year = y := by
  induction records with
  | nil => simp [sortedYears]
  | cons r rest ih =>
    rw [show sortedYears (r :: rest) = insertYear r.year (sortedYears rest) from rfl,
      mem_insertYear, ih]
    constructor
    · rintro (rfl | ⟨a, ha, rfl⟩)
      · exact ⟨r, List.mem_cons_self _ _, rfl⟩
      · exact ⟨a, List.mem_cons_of_mem _ ha, rfl⟩
    · rintro ⟨a, ha, rfl⟩
      rcases List.mem_cons.mp ha with rfl | ha
      · exact Or.inl rfl
      · exact Or.inr ⟨a, ha, rfl⟩

theorem minList_le_of_mem {l : List ℚ} {x : ℚ} (hx : x ∈ l) : minList l ≤ x := by
  induction l with
  | nil => cases hx
  | cons a rest ih =>
    cases rest with
    | nil =>
      rcases List.mem_cons.mp hx with rfl | hx
      · exact le_refl _
      · cases hx
    | cons b t =>
      rw [minList]
      rcases List.mem_cons.mp hx with rfl | hx
      · exact min_le_left _ _
      · exact le_trans (min_le_right _ _) (ih hx)

theorem le_maxList_of_mem {l : List ℚ} {x : ℚ} (hx : x ∈ l) : x ≤ maxList l := by
  induction l with
  | nil => cases hx
  | cons a rest ih =>
    cases rest with
    | nil =>
      rcases List.mem_cons.mp hx with rfl | hx
      · exact le_refl _
      · cases hx
    | cons b t =>
      rw [maxList]
      rcases List.mem_cons.mp hx with rfl | hx
      · exact le_max_left _ _
      · exact le_trans (ih hx) (le_max_right _ _)

theorem length_mul_minList_le_sum {l : List ℚ} (h : l ≠ []) :
    (l.length : ℚ) * minList l ≤ l.sum := by
  induction l with
  | nil => exact absurd rfl h
  | cons a rest ih =>
    cases rest with
    | nil => simp [minList]
    | cons b t =>
      have ih' := ih (List.cons_ne_nil _ _)
      have hmul : ((b :: t).length : ℚ) * minList (a :: b :: t) ≤
          ((b :: t).length : ℚ) * minList (b :: t) := by
        refine mul_le_mul_of_nonneg_left ?_ (Nat.cast_nonneg _)
        rw [minList]
        exact min_le_right _ _
      have hma : minList (a :: b :: t) ≤ a := by
        rw [minList]
        exact min_le_left _ _
      rw [List.length_cons, List.sum_cons]
      push_cast
      linarith

theorem sum_le_length_mul_maxList {l : List ℚ} (h : l ≠ []) :
    l.sum ≤ (l.length : ℚ) * maxList l := by
  induction l with
  | nil => exact absurd rfl h
  | cons a rest ih =>
    cases rest with
    | nil => simp [maxList]
    | cons b t =>
      have ih' := ih (List.cons_ne_nil _ _)
      have hmul : ((b :: t).length : ℚ) * maxList (b :: t) ≤
          ((b :: t).length : ℚ) * maxList (a :: b :: t) := by
        refine mul_le_mul_of_nonneg_left ?_ (Nat.cast_nonneg _)
        rw [maxList]
        exact le_max_right _ _
      have hma : a ≤ maxList (a :: b :: t) := by
        rw [maxList]
        exact le_max_left _ _
      rw [List.length_cons, List.sum_cons]
      push_cast
      linarith

theorem meanQ_bounds {l : List ℚ} (h : l ≠ []) :
    minList l ≤ meanQ l ∧ meanQ l ≤ maxList l := by
  have hlen : 0 < (l.length : ℚ) := by
    exact_mod_cast List.length_pos.mpr h
  constructor
  · rw [meanQ, le_div_iff₀ hlen, mul_comm]
    exact length_mul_minList_le_sum h
  · rw [meanQ, div_le_iff₀ hlen, mul_comm]
    exact sum_le_length_mul_maxList h

/-- Spec-side reading of the cleaning step: a row survives iff all five of
`magnitude`, `depth`, `Year`, `latitude`, `longitude` are non-missing. -/
def hasRequired (row : RawRow) : Bool :=
  row.magnitude.isSome && (row.depth.isSome && (row.year.isSome &&
    (row.latitude.isSome && row.longitude.isSome)))

/-- Spec-side conversion of a surviving row: each required field is taken as
is (the `getD 0` defaults are never used on a row passing `hasRequired`),
`Year` is cast to integer, and the tsunami indicator becomes `"Yes"` exactly
when its source value equals 1. -/
def toRecordD (row : RawRow) : EarthquakeRecord :=
  { magnitude := row.magnitude.getD 0
    depth := row.depth.getD 0
    year := astypeInt (row.year.getD 0)
    latitude := row.latitude.getD 0
    longitude := row.longitude.getD 0
    tsunami := if row.tsunami = some 1 then "Yes" else "No"
    place := row.place }

/-- A concrete raw row used by witnesses and counterexamples: all five
required fields present. -/
def sampleRow (y : ℤ) (m : ℚ) (t : Option ℚ) : RawRow :=
  { magnitude := some m
    depth := some 10
    year := some (y : ℚ)
    latitude := some 1
    longitude := some 2
    tsunami := t
    place := some "somewhere" }

/-! ### The claims -/

/-- C1: `filtered` (src/app.py lines 45-48) returns exactly the records of
the input whose year equals the selected year and whose magnitude lies in the
inclusive range `[lo, hi]`, in input order (a sublist of the input), with the
exact multiplicity of the input and nothing drawn from outside it. -/
theorem filterRecords_spec (records : List EarthquakeRecord) (y : ℤ)
    (lo hi : ℚ) :
    List.Sublist (filterRecords records y lo hi) records ∧
    (∀ r : EarthquakeRecord, r ∈ filterRecords records y lo hi ↔
      r ∈ records ∧ r.year = y ∧ lo ≤ r.magnitude ∧ r.magnitude ≤ hi) ∧
    (∀ r : EarthquakeRecord, (filterRecords records y lo hi).count r =
      if r.year = y ∧ lo ≤ r.magnitude ∧ r.magnitude ≤ hi then
        records.count r else 0) := by
  refine ⟨List.filter_sublist _, ?_, ?_⟩
  · intro r
    simp [filterRecords, List.mem_filter, and_assoc]
  · intro r
    by_cases h : r.year = y ∧ lo ≤ r.magnitude ∧ r.magnitude ≤ hi
    · rw [if_pos h]
      exact List.count_filter (by simp [h.1, h.2.1, h.2.2])
    · rw [if_neg h]
      refine List.count_eq_zero.mpr fun hc => h ?_
      have := (List.mem_filter.mp hc).2
      simp only [Bool.and_eq_true, decide_eq_true_eq] at this
      exact ⟨this.1, this.2.1, this.2.2⟩


theorem cleanRow_eq (row : RawRow) :
    cleanRow row = if hasRequired row then some (toRecordD row) else none := by
  rcases hm : row.magnitude with _ | m <;> rcases hd : row.depth with _ | d <;>
    rcases hy : row.year with _ | yv <;>
    rcases hla : row.latitude with _ | la <;>
    rcases hlo : row.longitude with _ | lov <;>
    simp [cleanRow, hasRequired, toRecordD, hm, hd, hy, hla, hlo]

theorem load_data_eq (rows : List RawRow) :
    load_data rows = (rows.filter hasRequired).map toRecordD := by
  induction rows with
  | nil => rfl
  | cons row rest ih =>
    by_cases hreq : hasRequired row = true
    · rw [load_data, List.filterMap_cons, cleanRow_eq, if_pos hreq,
        List.filter_cons_of_pos hreq, List.map_cons]
      exact congrArg (List.cons (toRecordD row)) ih
    · rw [load_data, List.filterMap_cons, cleanRow_eq, if_neg hreq,
        List.filter_cons_of_neg hreq]
      exact ih

theorem mem_load_data {rows : List RawRow} {rec : EarthquakeRecord} :
    rec ∈ load_data rows ↔
      ∃ row ∈ rows, hasRequired row = true ∧ rec = toRecordD row := by
  rw [load_data_eq]
  constructor
  · intro h
    obtain ⟨row, hrow, rfl⟩ := List.mem_map.mp h
    exact ⟨row, (List.mem_filter.mp hrow).1, (List.mem_filter.mp hrow).2, rfl⟩
  · rintro ⟨row, hrow, hreq, rfl⟩
    exact List.mem_map_of_mem _ (List.mem_filter.mpr ⟨hrow, hreq⟩)

/-- C4: `load_data` (src/app.py lines 17-25) keeps exactly the input rows
with non-missing `magnitude`, `depth`, `Year`, `latitude` and `longitude`,
in order, converting each kept row by casting `Year` to integer and mapping
the tsunami indicator to `"Yes"` iff its source value equals 1; every output
record arises from such an input row. -/
theorem load_data_spec (rows : List RawRow) :
    load_data rows = (rows.filter hasRequired).map toRecordD ∧
    (∀ rec : EarthquakeRecord, rec ∈ load_data rows ↔
      ∃ row ∈ rows, hasRequired row = true ∧ rec = toRecordD row) :=
  ⟨load_data_eq rows, fun _ => mem_load_data⟩

/-- C9: `load_data` is deterministic in the file contents: two reads of
identical raw rows produce identical cleaned record sequences.  In this
embedding `load_data` is a pure function of the parsed rows, so determinism
is congruence; `@st.cache_data` only memoizes that pure function. -/
theorem load_data_deterministic (rows₁ rows₂ : List RawRow)
    (h : rows₁ = rows₂) : load_data rows₁ = load_data rows₂ := by
  rw [h]

/-- Witness for C9 at a concrete file content. -/
theorem load_data_deterministic_witness :
    [sampleRow 2020 5 (some 1)] = [sampleRow 2020 5 (some 1)] ∧
    load_data [sampleRow 2020 5 (some 1)] =
      load_data [sampleRow 2020 5 (some 1)] :=
  ⟨rfl, load_data_deterministic [sampleRow 2020 5 (some 1)]
    [sampleRow 2020 5 (some 1)] rfl⟩

/-- C8: the tabular preview (src/app.py line 125) is exactly the first
`min(20, length)` rows of the filtered sequence, in order: it is a prefix of
the filtered sequence, and positions at index 20 or beyond never appear. -/
theorem previewRows_spec (filtered : List EarthquakeRecord) :
    (previewRows filtered).length = min 20 filtered.length ∧
    (∀ i : ℕ, (previewRows filtered)[i]? =
      if i < 20 then filtered[i]? else none) ∧
    previewRows filtered <+: filtered := by
  refine ⟨List.length_take _ _, ?_, List.take_prefix _ _⟩
  intro i
  exact List.getElem?_take

/-- C10: after `load_data`, every record's tsunami field is the string
`"Yes"` or `"No"`; a row whose five required fields are present is retained
even when its tsunami source value is missing or differs from 1, in which
case it maps to `"No"`; and the two-valuedness is preserved by the filter
operation. -/
theorem tsunami_two_valued (rows : List RawRow) :
    (∀ r ∈ load_data rows, r.tsunami = "Yes" ∨ r.tsunami = "No") ∧
    (∀ row ∈ rows, hasRequired row = true → row.tsunami ≠ some 1 →
      toRecordD row ∈ load_data rows ∧ (toRecordD row).tsunami = "No") ∧
    (∀ (y : ℤ) (lo hi : ℚ), ∀ r ∈ filterRecords (load_data rows) y lo hi,
      r.tsunami = "Yes" ∨ r.tsunami = "No") := by
  have hYesNo : ∀ r ∈ load_data rows,
      r.tsunami = "Yes" ∨ r.tsunami = "No" := by
    intro r hr
    obtain ⟨row, _, _, rfl⟩ := mem_load_data.mp hr
    by_cases ht : row.tsunami = some 1
    · exact Or.inl (by simp [toRecordD, ht])
    · exact Or.inr (by simp [toRecordD, ht])
  refine ⟨hYesNo, ?_, ?_⟩
  · intro row hrow hreq ht
    exact ⟨mem_load_data.mpr ⟨row, hrow, hreq, rfl⟩, by simp [toRecordD, ht]⟩
  · intro y lo hi r hr
    exact hYesNo r (List.mem_of_mem_filter hr)

/-- C5: `avg_mag` (src/app.py line 56) has exactly one entry per distinct
year of the input (its year column is strictly ascending, hence duplicate
free, and carries a year iff some record has it), and each entry's value is
the arithmetic mean of that year's magnitudes, which lies between the
minimum and the maximum magnitude observed for that year. -/
theorem avg_mag_spec (records : List EarthquakeRecord)
    (_hne : records ≠ []) :
    ((avg_mag records).map Prod.fst).Pairwise (· < ·) ∧
    (∀ y : ℤ, y ∈ (avg_mag records).map Prod.fst ↔
      ∃ r ∈ records, r.year = y) ∧
    (∀ p ∈ avg_mag records,
      p.2 = meanQ (yearMags records p.1) ∧
      minList (yearMags records p.1) ≤ p.2 ∧
      p.2 ≤ maxList (yearMags records p.1)) := by
  have keys : (avg_mag records).map Prod.fst = sortedYears records := by
    rw [avg_mag, List.map_map]
    exact List.map_id' _
  refine ⟨?_, ?_, ?_⟩
  · rw [keys]
    exact sortedYears_pairwise records
  · intro y
    rw [keys]
    exact mem_sortedYears
  · intro p hp
    obtain ⟨y, hy, rfl⟩ := List.mem_map.mp hp
    obtain ⟨r, hr, hry⟩ := mem_sortedYears.mp hy
    have hmem : r.magnitude ∈ yearMags records y := by
      rw [yearMags]
      exact List.mem_map_of_mem _
        (List.mem_filter.mpr ⟨hr, by simp [hry]⟩)
    have hmne : yearMags records y ≠ [] := List.ne_nil_of_mem hmem
    exact ⟨rfl, (meanQ_bounds hmne).1, (meanQ_bounds hmne).2⟩

/-- Witness for C5 at a concrete two-year record set. -/
theorem avg_mag_spec_witness :
    load_data [sampleRow 2020 4 none, sampleRow 2020 6 (some 1),
      sampleRow 2021 5 (some 0)] ≠ [] ∧
    (((avg_mag (load_data [sampleRow 2020 4 none, sampleRow 2020 6 (some 1),
      sampleRow 2021 5 (some 0)])).map Prod.fst).Pairwise (· < ·) ∧
    (∀ y : ℤ, y ∈ (avg_mag (load_data [sampleRow 2020 4 none,
      sampleRow 2020 6 (some 1), sampleRow 2021 5 (some 0)])).map Prod.fst ↔
      ∃ r ∈ load_data [sampleRow 2020 4 none, sampleRow 2020 6 (some 1),
        sampleRow 2021 5 (some 0)], r.year = y) ∧
    (∀ p ∈ avg_mag (load_data [sampleRow 2020 4 none,
      sampleRow 2020 6 (some 1), sampleRow 2021 5 (some 0)]),
      p.2 = meanQ (yearMags (load_data [sampleRow 2020 4 none,
        sampleRow 2020 6 (some 1), sampleRow 2021 5 (some 0)]) p.1) ∧
      minList (yearMags (load_data [sampleRow 2020 4 none,
        sampleRow 2020 6 (some 1), sampleRow 2021 5 (some 0)]) p.1) ≤ p.2 ∧
      p.2 ≤ maxList (yearMags (load_data [sampleRow 2020 4 none,
        sampleRow 2020 6 (some 1), sampleRow 2021 5 (some 0)]) p.1))) :=
  ⟨by decide, avg_mag_spec _ (by decide)⟩

/-- C6: filtering with the full observed magnitude range
(`float(data["magnitude"].min())` to `float(data["magnitude"].max())`,
src/app.py lines 35-36) and a given year keeps exactly the records of that
year: the magnitude bounds hold for every record, so the range test is a
no-op at the extremes. -/
theorem filter_full_range (records : List EarthquakeRecord) (y : ℤ) :
    filterRecords records y (min_mag records) (max_mag records) =
      records.filter fun r => decide (r.year = y) := by
  refine List.filter_congr ?_
  intro r hr
  have hmin : min_mag records ≤ r.magnitude :=
    minList_le_of_mem (List.mem_map_of_mem _ hr)
  have hmax : r.magnitude ≤ max_mag records :=
    le_maxList_of_mem (List.mem_map_of_mem _ hr)
  simp [hmin, hmax]

/-- C7: filter criteria with an empty result are a valid non-error state
(src/app.py lines 98-122): the run still takes the normal `Except.ok` path,
the map slot of the page holds the `st.info` message instead of the
geographic chart, and that state is distinct from every fatal
`DataLoadError`. -/
theorem empty_result_is_info (rows : List RawRow) (y : ℤ) (lo hi : ℚ)
    (h : filterRecords (load_data rows) y lo hi = []) :
    runApp (some rows) y lo hi =
      Except.ok (renderPage (load_data rows) y lo hi) ∧
    (renderPage (load_data rows) y lo hi).mapSection =
      MapSection.infoMessage emptyFilterMessage ∧
    (∀ e : DataLoadError, runApp (some rows) y lo hi ≠ Except.error e) := by
  refine ⟨rfl, ?_, ?_⟩
  · have hms : (renderPage (load_data rows) y lo hi).mapSection =
        if (filterRecords (load_data rows) y lo hi).isEmpty then
          MapSection.infoMessage emptyFilterMessage
        else MapSection.geoChart (filterRecords (load_data rows) y lo hi) :=
      rfl
    rw [hms, h]
    rfl
  · intro e hc
    exact Except.noConfusion hc

/-- Witness for C7: a one-record data set filtered to a year it does not
contain. -/
theorem empty_result_is_info_witness :
    filterRecords (load_data [sampleRow 2020 5 (some 1)]) 1999 0 10 = [] ∧
    (runApp (some [sampleRow 2020 5 (some 1)]) 1999 0 10 =
      Except.ok (renderPage (load_data [sampleRow 2020 5 (some 1)]) 1999 0 10) ∧
    (renderPage (load_data [sampleRow 2020 5 (some 1)]) 1999 0 10).mapSection =
      MapSection.infoMessage emptyFilterMessage ∧
    (∀ e : DataLoadError,
      runApp (some [sampleRow 2020 5 (some 1)]) 1999 0 10 ≠ Except.error e)) :=
  ⟨by decide, empty_result_is_info [sampleRow 2020 5 (some 1)] 1999 0 10
    (by decide)⟩

/-- C3, counterexample: on the cleaned record set of a single row whose
tsunami flag is 0, `tsunami_count` carries the key `"No"` only - the key
`"Yes"`, whose count would be zero, is absent, against the claim that both
keys are always present. -/
theorem tsunami_count_key_counterexample :
    (tsunami_count (load_data [sampleRow 2020 5 (some 0)])).map Prod.fst =
      ["No"] ∧
    "Yes" ∉ (tsunami_count (load_data [sampleRow 2020 5 (some 0)])).map
      Prod.fst := by
  refine ⟨by decide, ?_⟩
  intro h
  revert h
  decide

/-- C3, amended: the counts of `tsunami_count` (src/app.py lines 83-84) sum
to the total record count, and its keys are exactly the tsunami values that
occur in the record set - `pd.Series.value_counts` lists no zero-count
value, so a flag value carried by no record is absent rather than present
with count zero. -/
theorem tsunami_count_spec (records : List EarthquakeRecord) :
    ((tsunami_count records).map Prod.snd).sum = records.length ∧
    (∀ v : String, v ∈ (tsunami_count records).map Prod.fst ↔
      ∃ r ∈ records, r.tsunami = v) := by
  constructor
  · rw [tsunami_count, List.map_map]
    have hc : ((tsunamiColumn records).dedup.map
        (Prod.snd ∘ fun v => (v, (tsunamiColumn records).count v))).sum =
        ((tsunamiColumn records).dedup.map
          (fun v => (tsunamiColumn records).count v)).sum := rfl
    rw [hc, List.sum_map_count_dedup_eq_length]
    rw [tsunamiColumn, List.length_map]
  · intro v
    rw [tsunami_count, List.map_map]
    have hk : (tsunamiColumn records).dedup.map
        (Prod.fst ∘ fun v => (v, (tsunamiColumn records).count v)) =
        (tsunamiColumn records).dedup := List.map_id' _
    rw [hk, List.mem_dedup, tsunamiColumn]
    constructor
    · intro h
      obtain ⟨r, hr, hrv⟩ := List.mem_map.mp h
      exact ⟨r, hr, hrv⟩
    · rintro ⟨r, hr, rfl⟩
      exact List.mem_map_of_mem _ hr

/-- C2, counterexample: on a concrete two-year record set the trend line's
input - `avg_mag` of the full data (src/app.py line 56) - differs from the
per-year mean series of the filtered view, so the pie chart is not the only
visual aggregating over unfiltered data. -/
theorem trend_unfiltered_counterexample :
    (renderPage (load_data [sampleRow 2020 4 none, sampleRow 2021 6 none])
        2020 0 10).trendInput ≠
      avg_mag (filterRecords
        (load_data [sampleRow 2020 4 none, sampleRow 2021 6 none])
        2020 0 10) := by
  intro h
  have hlen := congrArg List.length h
  exact absurd hlen (by decide)

/-- C2, amended: the tsunami tally feeding the pie chart is computed over
the full unfiltered record set - it is invariant under the filter criteria -
but so is the yearly-average trend line's input; only the scatter plot, the
map section and the tabular preview are built from the filtered view. -/
theorem unfiltered_aggregates_spec (data : List EarthquakeRecord)
    (y y' : ℤ) (lo lo' hi hi' : ℚ) :
    (renderPage data y lo hi).pieInput = tsunami_count data ∧
    (renderPage data y lo hi).pieInput = (renderPage data y' lo' hi').pieInput ∧
    (renderPage data y lo hi).trendInput = avg_mag data ∧
    (renderPage data y lo hi).trendInput =
      (renderPage data y' lo' hi').trendInput ∧
    (renderPage data y lo hi).scatterInput = filterRecords data y lo hi ∧
    (renderPage data y lo hi).mapSection =
      (if (filterRecords data y lo hi).isEmpty then
        MapSection.infoMessage emptyFilterMessage
      else MapSection.geoChart (filterRecords data y lo hi)) ∧
    (renderPage data y lo hi).preview =
      previewRows (filterRecords data y lo hi) :=
  ⟨rfl, rfl, rfl, rfl, rfl, rfl, rfl⟩
